import Mathlib

/-!
Verification of the research-and-synthesis pipeline of the Data-Lama
repository (`app/utils.py`, `app/synthesizer.py`, `app/researcher.py`,
`app/main.py`).

The Python code is shallowly embedded: Python strings are Lean `String`s,
but every Python string operation (`strip`, `split`, `replace`, `in`,
`lower`, …) is re-implemented here by structural recursion on the
character list so that all definitions are executable and evaluate inside
the kernel.  Network and clock effects are passed in explicitly as oracle
arguments (lists of wire events, extraction oracles, clock readings).
-/

/-! ## Python string primitives (embedded on `List Char`) -/

/-- Whitespace set used by Python `str.strip` (ASCII part). -/
def pySpace (c : Char) : Bool :=
  c == ' ' || c == '\t' || c == '\n' || c == '\r' || c == '\x0b' || c == '\x0c'

/-- Python `str.strip()` on a character list. -/
def trimL (l : List Char) : List Char :=
  ((l.dropWhile pySpace).reverse.dropWhile pySpace).reverse

/-- Python `s.strip()`. -/
def pyStrip (s : String) : String := ⟨trimL s.data⟩

/-- Boolean "is prefix of" on character lists. -/
def isPreB : List Char → List Char → Bool
  | [], _ => true
  | _ :: _, [] => false
  | a :: u, b :: v => a == b && isPreB u v

/-- Core of Python `s.split(sep)` (non-overlapping, left to right); the
`skip` counter consumes the remaining characters of a just-matched
separator so that the recursion stays structural. -/
def splitGo (sep : List Char) : List Char → Nat → List Char → List (List Char)
  | [], _, acc => [acc.reverse]
  | _ :: rest, skip+1, acc => splitGo sep rest skip acc
  | c :: rest, 0, acc =>
      if sep ≠ [] && isPreB sep (c :: rest) then
        acc.reverse :: splitGo sep rest (sep.length - 1) []
      else splitGo sep rest 0 (c :: acc)

/-- Python `s.split(sep)` for a non-empty separator. -/
def pySplit (s sep : String) : List String :=
  (splitGo sep.data s.data 0 []).map (fun l => ⟨l⟩)

/-- Core of Python `pat in s` on character lists. -/
def containsL (sub : List Char) : List Char → Bool
  | [] => isPreB sub []
  | s@(_ :: rest) => isPreB sub s || containsL sub rest

/-- Python `sub in s`. -/
def pyIn (sub s : String) : Bool := containsL sub.data s.data

/-- Core of Python `s.replace(pat, rep)` (replace every non-overlapping
occurrence, left to right); `skip` as in `splitGo`. -/
def replGo (pat rep : List Char) : List Char → Nat → List Char
  | [], _ => []
  | _ :: rest, skip+1 => replGo pat rep rest skip
  | c :: rest, 0 =>
      if pat ≠ [] && isPreB pat (c :: rest) then
        rep ++ replGo pat rep rest (pat.length - 1)
      else c :: replGo pat rep rest 0

/-- Python `s.replace(pat, rep)` for a non-empty pattern. -/
def pyReplace (s pat rep : String) : String := ⟨replGo pat.data rep.data s.data 0⟩

/-- ASCII lower-casing of one character (Python `str.lower` on the
character set appearing in this code base). -/
def lowerC (c : Char) : Char :=
  if 'A' ≤ c && c ≤ 'Z' then Char.ofNat (c.toNat + 32) else c

/-- Python `s.lower()`. -/
def pyLower (s : String) : String := ⟨s.data.map lowerC⟩

/-- Python `s[:n]`. -/
def pyTake (s : String) (n : Nat) : String := ⟨s.data.take n⟩

/-- Python `s.lstrip(chars)` for an explicit character set. -/
def pyLStrip (s : String) (set : List Char) : String :=
  ⟨s.data.dropWhile (fun c => set.contains c)⟩

/-- Rendering of a Python value that may be `None` inside an f-string. -/
def optPyStr : Option String → String
  | some s => s
  | none => "None"

/-! ## Data model -/

/-- A search hit (`SearchHit` of the spec): the dicts produced by
`serper_search` / `openrouter_search` / `get_fallback_sources`, which
always carry these four keys. -/
structure Hit where
  title : String
  url : String
  snippet : String
  content : String
deriving Repr, DecidableEq

/-- A document (`Document` of the spec): the dicts assembled by the
researcher and the synthetic-content generator.  Keys that a given code
path does not set are modelled with their Python "absent" defaults. -/
structure Doc where
  url : String
  title : String
  authors : List String := []
  publish_date : Option String := none
  text : String
  summary : String
  source_snippet : Option String := none
  synthetic : Bool := false
  error : Option String := none
deriving Repr, DecidableEq

/-- One chat message (`{"role": ..., "content": ...}`). -/
structure ChatMsg where
  role : String
  content : String
deriving Repr, DecidableEq

/-- One observable outcome of one `requests.post` to the LLM provider:
an HTTP response (for status 200 the extracted
`choices[0].message.content`, `none` when the body lacks that shape), a
timeout, or a connection error. -/
inductive WireEvent
  | resp (status : Nat) (content : Option String)
  | timeout
  | connError
deriving Repr, DecidableEq

/-! ## `app/synthesizer.py`: model registry -/

/-- One entry of `AVAILABLE_MODELS`. -/
structure ModelConfig where
  name : String
  provider : String
  max_tokens : Nat
  supports_streaming : Bool
  description : String
  logo : String
deriving Repr, DecidableEq

def DEFAULT_MODEL : String := "google/gemini-2.0-flash-exp:free"

def geminiFlashConfig : ModelConfig :=
  { name := "Gemini 2.0 Flash", provider := "Google", max_tokens := 8192,
    supports_streaming := true,
    description := "Google\x27s latest experimental model",
    logo := "https://logo.clearbit.com/google.com" }

/-- The static model catalog `AVAILABLE_MODELS` (insertion order kept). -/
def AVAILABLE_MODELS : List (String × ModelConfig) :=
  [("x-ai/grok-4-fast:free",
    { name := "Grok 4 Fast", provider := "xAI", max_tokens := 8192,
      supports_streaming := true,
      description := "Lightning-fast responses with xAI\x27s latest model",
      logo := "https://logo.clearbit.com/x.ai" }),
   ("deepseek/deepseek-chat-v3.1:free",
    { name := "DeepSeek Chat v3.1", provider := "DeepSeek", max_tokens := 8192,
      supports_streaming := true,
      description := "Advanced reasoning and coding capabilities",
      logo := "https://logo.clearbit.com/deepseek.com" }),
   ("deepseek/deepseek-chat-v3-0324:free",
    { name := "DeepSeek Chat v3.0", provider := "DeepSeek", max_tokens := 8192,
      supports_streaming := true,
      description := "Efficient general-purpose AI model",
      logo := "https://logo.clearbit.com/deepseek.com" }),
   ("microsoft/mai-ds-r1:free",
    { name := "MAI-DS R1", provider := "Microsoft", max_tokens := 4096,
      supports_streaming := true,
      description := "Microsoft\x27s advanced AI for data science",
      logo := "https://logo.clearbit.com/microsoft.com" }),
   ("meta-llama/llama-3.3-70b-instruct:free",
    { name := "Llama 3.3 70B", provider := "Meta", max_tokens := 8192,
      supports_streaming := true,
      description := "Meta\x27s powerful open-source model",
      logo := "https://logo.clearbit.com/meta.com" }),
   (DEFAULT_MODEL, geminiFlashConfig),
   ("openai/gpt-oss-20b:free",
    { name := "GPT OSS 20B", provider := "OpenAI", max_tokens := 4096,
      supports_streaming := true,
      description := "Open-source variant from OpenAI",
      logo := "https://logo.clearbit.com/openai.com" }),
   ("mistralai/mistral-small-3.2-24b-instruct:free",
    { name := "Mistral Small 3.2", provider := "Mistral AI", max_tokens := 8192,
      supports_streaming := true,
      description := "Efficient and capable European AI",
      logo := "https://logo.clearbit.com/mistral.ai" }),
   ("google/gemma-3-27b-it:free",
    { name := "Gemma 3 27B", provider := "Google", max_tokens := 8192,
      supports_streaming := true,
      description := "Google\x27s instruction-tuned model",
      logo := "https://logo.clearbit.com/google.com" }),
   ("mistralai/mistral-7b-instruct:free",
    { name := "Mistral 7B Instruct", provider := "Mistral AI", max_tokens := 8192,
      supports_streaming := true,
      description := "Compact but powerful AI model",
      logo := "https://logo.clearbit.com/mistral.ai" })]

/-- Function `validate_model`: `None`/empty/unknown ids fall back to the default
model id, known ids are returned unchanged. -/
def validate_model (model_id : Option String) : String :=
  match model_id with
  | none => DEFAULT_MODEL
  | some m =>
      if m = "" then DEFAULT_MODEL
      else if (AVAILABLE_MODELS.lookup m).isSome then m
      else DEFAULT_MODEL

/-- Function `get_model_config`: configuration of the validated model
(`AVAILABLE_MODELS.get(validated, AVAILABLE_MODELS[DEFAULT_MODEL])`). -/
def get_model_config (model_id : Option String) : ModelConfig :=
  (AVAILABLE_MODELS.lookup (validate_model model_id)).getD geminiFlashConfig

/-! ## `app/synthesizer.py`: rate-limited model client -/

/-- Function `generate_fallback_response`: the synthesized degraded-mode text
returned when the retry loop falls through (the body is the f-string of
the source, line by line). -/
def generate_fallback_response (messages : List ChatMsg) (model_id : Option String) : String :=
  let model_config := get_model_config model_id
  let model_name := model_config.name
  let provider := model_config.provider
  let user_message := ((messages.find? (fun m => m.role == "user")).map (fun m => m.content)).getD ""
  let question :=
    if pyIn "Question:" user_message then
      pyStrip (((pySplit ((pySplit user_message "Question:").getD 1 "") "\n").getD 0 ""))
    else
      if user_message.length > 100 then pyTake user_message 100 ++ "..." else user_message
  let mid := optPyStr (match model_id with
    | some m => if m = "" then some "Unknown" else some m
    | none => some "Unknown")
  s!"I apologize, but I\x27m currently experiencing high demand and cannot access {model_name} to provide a comprehensive analysis of your question about {question}.

**What this means:**
- The {provider} model ({model_name}) is currently rate-limited due to high usage
- This is a temporary issue that typically resolves within a few minutes

**What you can do:**
1. **Try a different model**: Switch to another available model in the model selector
2. **Wait and retry**: Please try asking your question again in 2-3 minutes with {model_name}
3. **Check your API limits**: If you have a paid OpenRouter account, you may have reached your monthly limit
4. **Verify your API key**: Ensure your OPENROUTER_API_KEY is correctly set in your .env file

**Available alternatives:**
- Try Grok 4 Fast for lightning-fast responses
- Try DeepSeek Chat for advanced reasoning
- Try Gemini 2.0 Flash for experimental features

**Technical details:**
- Model: {mid}
- Provider: {provider}
- Error: Rate limit or server error
- Your application is working correctly, this affects only the AI analysis capability

Please try your query again with the same or different model shortly. The system will automatically retry with proper rate limiting."

/-- The retry loop of `call_openrouter` for the case where the validated
model is already `DEFAULT_MODEL` (so the HTTP-400 branch raises instead
of recursing).  `fuel` is the number of loop iterations still available
(`max_retries - attempt`); the Python test `attempt < max_retries - 1`
is `fuel ≥ 2` at the start of an iteration, i.e. `fuel ≥ 1` after the
current iteration is peeled off.  Every raised exception is routed
through the generic `except` handler of the source: retry while
`attempt < max_retries - 1`, re-raise on the final attempt.  An exhausted
wire (`[]`) is modelled as a connection error.  Falling out of the loop
(fuel exhausted) returns `generate_fallback_response`. -/
def orLoopD (hasKey : Bool) (msgs : List ChatMsg) (maxR : Nat) :
    Nat → List WireEvent → Except String String × List WireEvent
  | 0, evs => (.ok (generate_fallback_response msgs (some DEFAULT_MODEL)), evs)
  | fuel+1, evs =>
    if !hasKey then
      if fuel ≥ 1 then orLoopD hasKey msgs maxR fuel evs
      else (.error "OPENROUTER_API_KEY not set. See .env file", evs)
    else
      match evs with
      | [] =>
          if fuel ≥ 1 then orLoopD hasKey msgs maxR fuel []
          else (.error ("Connection error after multiple attempts with " ++ DEFAULT_MODEL), [])
      | e :: rest =>
        match e with
        | .resp 200 content =>
            match content with
            | some c => (.ok (pyStrip c), rest)
            | none =>
                if fuel ≥ 1 then orLoopD hasKey msgs maxR fuel rest
                else (.error "Invalid response format from OpenRouter API", rest)
        | .resp 400 _ =>
            if fuel ≥ 1 then orLoopD hasKey msgs maxR fuel rest
            else (.error "Bad request", rest)
        | .resp 401 _ =>
            if fuel ≥ 1 then orLoopD hasKey msgs maxR fuel rest
            else (.error "Invalid API key. Please check your OPENROUTER_API_KEY", rest)
        | .resp 402 _ =>
            if fuel ≥ 1 then orLoopD hasKey msgs maxR fuel rest
            else (.error "Insufficient credits. Please add credits to your OpenRouter account", rest)
        | .resp 429 _ =>
            if fuel ≥ 1 then orLoopD hasKey msgs maxR fuel rest
            else (.error ("Rate limit exceeded after " ++ Nat.repr maxR ++ " attempts with " ++ DEFAULT_MODEL), rest)
        | .resp s _ =>
            if s ≥ 500 then
              if fuel ≥ 1 then orLoopD hasKey msgs maxR fuel rest
              else (.error ("Server error " ++ Nat.repr s ++ " after " ++ Nat.repr maxR ++ " attempts with " ++ DEFAULT_MODEL), rest)
            else if s ≥ 400 then
              -- `resp.raise_for_status()` raises for a 4xx not handled above
              if fuel ≥ 1 then orLoopD hasKey msgs maxR fuel rest
              else (.error ("HTTP error " ++ Nat.repr s), rest)
            else
              -- `raise_for_status` is a no-op (1xx/3xx/other 2xx): the loop
              -- body simply ends and the next attempt starts
              orLoopD hasKey msgs maxR fuel rest
        | .timeout =>
            if fuel ≥ 1 then orLoopD hasKey msgs maxR fuel rest
            else (.error ("Request timeout after multiple attempts with " ++ DEFAULT_MODEL), rest)
        | .connError =>
            if fuel ≥ 1 then orLoopD hasKey msgs maxR fuel rest
            else (.error ("Connection error after multiple attempts with " ++ DEFAULT_MODEL), rest)

/-- The retry loop of `call_openrouter` for a validated model `v`
different from `DEFAULT_MODEL`: identical to `orLoopD` except that the
HTTP-400 branch performs the source's
`return call_openrouter(messages, DEFAULT_MODEL, max_retries - attempt)`
(an exception from that inner call is caught by the generic handler of
the current attempt). -/
def orLoopND (hasKey : Bool) (msgs : List ChatMsg) (v : String) (maxR : Nat) :
    Nat → List WireEvent → Except String String × List WireEvent
  | 0, evs => (.ok (generate_fallback_response msgs (some v)), evs)
  | fuel+1, evs =>
    if !hasKey then
      if fuel ≥ 1 then orLoopND hasKey msgs v maxR fuel evs
      else (.error "OPENROUTER_API_KEY not set. See .env file", evs)
    else
      match evs with
      | [] =>
          if fuel ≥ 1 then orLoopND hasKey msgs v maxR fuel []
          else (.error ("Connection error after multiple attempts with " ++ v), [])
      | e :: rest =>
        match e with
        | .resp 200 content =>
            match content with
            | some c => (.ok (pyStrip c), rest)
            | none =>
                if fuel ≥ 1 then orLoopND hasKey msgs v maxR fuel rest
                else (.error "Invalid response format from OpenRouter API", rest)
        | .resp 400 _ =>
            let inner := orLoopD hasKey msgs (fuel+1) (fuel+1) rest
            match inner.1 with
            | .ok ans => (.ok ans, inner.2)
            | .error err =>
                if fuel ≥ 1 then orLoopND hasKey msgs v maxR fuel inner.2
                else (.error err, inner.2)
        | .resp 401 _ =>
            if fuel ≥ 1 then orLoopND hasKey msgs v maxR fuel rest
            else (.error "Invalid API key. Please check your OPENROUTER_API_KEY", rest)
        | .resp 402 _ =>
            if fuel ≥ 1 then orLoopND hasKey msgs v maxR fuel rest
            else (.error "Insufficient credits. Please add credits to your OpenRouter account", rest)
        | .resp 429 _ =>
            if fuel ≥ 1 then orLoopND hasKey msgs v maxR fuel rest
            else (.error ("Rate limit exceeded after " ++ Nat.repr maxR ++ " attempts with " ++ v), rest)
        | .resp s _ =>
            if s ≥ 500 then
              if fuel ≥ 1 then orLoopND hasKey msgs v maxR fuel rest
              else (.error ("Server error " ++ Nat.repr s ++ " after " ++ Nat.repr maxR ++ " attempts with " ++ v), rest)
            else if s ≥ 400 then
              if fuel ≥ 1 then orLoopND hasKey msgs v maxR fuel rest
              else (.error ("HTTP error " ++ Nat.repr s), rest)
            else
              orLoopND hasKey msgs v maxR fuel rest
        | .timeout =>
            if fuel ≥ 1 then orLoopND hasKey msgs v maxR fuel rest
            else (.error ("Request timeout after multiple attempts with " ++ v), rest)
        | .connError =>
            if fuel ≥ 1 then orLoopND hasKey msgs v maxR fuel rest
            else (.error ("Connection error after multiple attempts with " ++ v), rest)

/-- Function `call_openrouter`: validate the model and run the retry loop against
the wire oracle `evs` (`hasKey` models whether `OPENROUTER_API_KEY` is
set).  Returns `.ok text` for a value returned by the Python function and
`.error msg` for an exception it raises. -/
def call_openrouter (evs : List WireEvent) (hasKey : Bool) (messages : List ChatMsg)
    (model_id : Option String := none) (max_retries : Nat := 3) : Except String String :=
  let validated := validate_model model_id
  if validated = DEFAULT_MODEL then (orLoopD hasKey messages max_retries max_retries evs).1
  else (orLoopND hasKey messages validated max_retries max_retries evs).1

/-! ## Claims C1 and C5 -/

/-- C1: the claim says that when all retry attempts are exhausted (in
particular with HTTP 429 on every attempt) `call_openrouter` never
raises and returns the non-empty degraded text of
`generate_fallback_response`.  The code does the opposite on the 429
path: the final attempt's `raise` inside the `try` block is re-raised by
the generic `except` handler, so the function propagates an exception
and the fallback (which is indeed non-empty and was written for exactly
this scenario) is never reached.  This theorem evaluates the client at
the failing input: three 429 responses with three attempts produce a
raised exception, while the intended degraded text is non-empty. -/
theorem call_openrouter_429_exhaustion_raises :
    call_openrouter [.resp 429 none, .resp 429 none, .resp 429 none] true
        [⟨"user", "hello"⟩] none 3 =
      .error "Rate limit exceeded after 3 attempts with google/gemini-2.0-flash-exp:free" ∧
    generate_fallback_response [⟨"user", "hello"⟩] (some DEFAULT_MODEL) ≠ "" := by
  constructor
  · rfl
  · decide

/-- C5: model resolution never fails: `None`, the empty string and any
identifier absent from the static catalog resolve to the configured
default model; an identifier that is a key of the catalog is returned
unchanged together with its descriptor. -/
theorem model_resolution_never_fails :
    validate_model none = DEFAULT_MODEL ∧
    validate_model (some "") = DEFAULT_MODEL ∧
    (∀ m : String, (AVAILABLE_MODELS.lookup m).isNone → validate_model (some m) = DEFAULT_MODEL) ∧
    (∀ m cfg, AVAILABLE_MODELS.lookup m = some cfg →
      validate_model (some m) = m ∧ get_model_config (some m) = cfg) := by
  refine ⟨rfl, rfl, ?_, ?_⟩
  · intro m h
    rw [Option.isNone_iff_eq_none] at h
    simp only [validate_model]
    rw [h]
    simp
  · intro m cfg h
    have hm : m ≠ "" := by
      intro he
      subst he
      rw [show AVAILABLE_MODELS.lookup "" = none from by decide] at h
      exact Option.noConfusion h
    have hv : validate_model (some m) = m := by
      simp only [validate_model]
      rw [if_neg hm, h]
      rfl
    refine ⟨hv, ?_⟩
    unfold get_model_config
    rw [hv, h]
    rfl

/-- Witness for C5 at concrete inputs: an unknown id resolves to the
default, a catalog id resolves to itself. -/
theorem model_resolution_never_fails_witness :
    validate_model (some "unknown-model") = DEFAULT_MODEL ∧
    validate_model (some "x-ai/grok-4-fast:free") = "x-ai/grok-4-fast:free" :=
  ⟨model_resolution_never_fails.2.2.1 "unknown-model" (by decide),
   (model_resolution_never_fails.2.2.2 "x-ai/grok-4-fast:free"
      { name := "Grok 4 Fast", provider := "xAI", max_tokens := 8192,
        supports_streaming := true,
        description := "Lightning-fast responses with xAI\x27s latest model",
        logo := "https://logo.clearbit.com/x.ai" } (by decide)).1⟩

/-! ## `app/synthesizer.py`: rate limiter (claim C8) -/

/-- Constant `RATE_LIMIT_DELAY = 2` seconds between requests. -/
def RATE_LIMIT_DELAY : ℚ := 2

/-- The state of the process-wide `RateLimitedClient` instance:
`last_request_time` (initially `0`) and `request_count`. -/
structure RLState where
  last_request_time : ℚ
  request_count : ℕ
deriving Repr, DecidableEq

/-- Sleep performed by `wait_if_needed` when called at clock time `t1`:
`RATE_LIMIT_DELAY - time_since_last` when `time_since_last` is below the
delay, otherwise none. -/
def sleepNeeded (st : RLState) (t1 : ℚ) : ℚ :=
  if t1 - st.last_request_time < RATE_LIMIT_DELAY then
    RATE_LIMIT_DELAY - (t1 - st.last_request_time)
  else 0

/-- Method `RateLimitedClient.wait_if_needed`: the method reads the clock
(`t1`), sleeps `sleepNeeded` seconds, reads the clock again (`t2`),
stores it as `last_request_time` and bumps `request_count`.  The two
clock readings are oracle inputs; the relation `t1 + sleepNeeded ≤ t2`
(time really elapsed during the sleep) is imposed by `ValidRun`. -/
def wait_if_needed (st : RLState) (t1 t2 : ℚ) : RLState :=
  ⟨t2, st.request_count + 1⟩

/-- A physically possible sequence of clock readings for a sequence of
calls through the shared limiter: each call reads `t1` no earlier than
the previously stored time (the clock is monotone and the previous call
returned first), and its post-sleep reading `t2` accounts for the sleep
`wait_if_needed` performs. -/
def ValidRun (st : RLState) : List (ℚ × ℚ) → Prop
  | [] => True
  | (t1, t2) :: rest =>
      st.last_request_time ≤ t1 ∧ t1 + sleepNeeded st t1 ≤ t2 ∧
      ValidRun (wait_if_needed st t1 t2) rest

/-- The times at which the outbound requests are issued (immediately
after `wait_if_needed` returns, i.e. at its second clock reading). -/
def callTimes (st : RLState) : List (ℚ × ℚ) → List ℚ
  | [] => []
  | (t1, t2) :: rest => t2 :: callTimes (wait_if_needed st t1 t2) rest

/-- Any call through the limiter is issued at least `RATE_LIMIT_DELAY`
after the previously stored request time. -/
theorem callTime_lower (st : RLState) (t1 t2 : ℚ)
    (h : t1 + sleepNeeded st t1 ≤ t2) :
    st.last_request_time + RATE_LIMIT_DELAY ≤ t2 := by
  unfold sleepNeeded at h
  split_ifs at h with hlt
  · linarith
  · linarith

/-- C8: across any physically valid sequence of calls through the shared
rate limiter, no two outbound requests are issued closer together than
`RATE_LIMIT_DELAY`: the issue times form a chain where each is at least
the delay after the previous one.  The gate is a single process-wide
state (one `RLState` threaded through the whole run, with no per-model
component). -/
theorem rate_limiter_min_spacing :
    ∀ (ps : List (ℚ × ℚ)) (st : RLState), ValidRun st ps →
      List.Chain' (fun a b => a + RATE_LIMIT_DELAY ≤ b) (callTimes st ps) := by
  intro ps
  induction ps with
  | nil => intro st _; simp [callTimes]
  | cons p rest ih =>
    obtain ⟨t1, t2⟩ := p
    rintro st ⟨hm, hs, hv⟩
    simp only [callTimes]
    rw [List.chain'_cons']
    refine ⟨?_, ih _ hv⟩
    intro b hb
    match rest, hv, hb with
    | (u1, u2) :: qs, ⟨hm2, hs2, _⟩, hb =>
      simp only [callTimes, List.head?_cons, Option.mem_def, Option.some.injEq] at hb
      subst hb
      have := callTime_lower (wait_if_needed st t1 t2) u1 u2 hs2
      simpa [wait_if_needed] using this

/-- Witness for C8: a concrete valid two-call run (second call arrives
only half a second after the first) is spaced by at least the delay. -/
theorem rate_limiter_min_spacing_witness :
    ValidRun ⟨0, 0⟩ [(0, 2), (5/2, 4)] ∧
    List.Chain' (fun a b => a + RATE_LIMIT_DELAY ≤ b) (callTimes ⟨0, 0⟩ [(0, 2), (5/2, 4)]) := by
  have hv : ValidRun ⟨0, 0⟩ [(0, 2), (5/2, 4)] := by
    simp only [ValidRun, wait_if_needed, sleepNeeded, RATE_LIMIT_DELAY]
    norm_num
  exact ⟨hv, rate_limiter_min_spacing _ _ hv⟩

/-! ## `app/main.py`: input validation and the `/ask` boundary -/

/-- Function `validate_question`: empty/whitespace questions and questions whose
trimmed length is above 1000 or below 3 raise `ValueError`; otherwise
the trimmed question is returned. -/
def validate_question (question : String) : Except String String :=
  if question = "" ∨ pyStrip question = "" then .error "Question cannot be empty"
  else if (pyStrip question).length > 1000 then .error "Question is too long (max 1000 characters)"
  else if (pyStrip question).length < 3 then .error "Question is too short (min 3 characters)"
  else .ok (pyStrip question)

/-- The observable outcome of the `/ask` endpoint, as far as the input
validation boundary is concerned: a `ValueError` from validation is
mapped to an `INVALID_INPUT` error response (HTTP 400) before any
research or synthesis step runs; otherwise the research phase is entered
with the trimmed question and validated model. -/
inductive AskResponse
  | invalidInput (msg : String)
  | researchFailed (msg : String)
  | noSourcesFound
  | synthesis (question : String) (model : String) (sources : List Doc)
deriving Repr, DecidableEq

/-- The `/ask` handler down to the synthesis step, with the research
phase passed in as an oracle (`.error` = `researcher_job` raised). -/
def ask (research : String → Except String (List Doc))
    (question : String) (model : Option String) : AskResponse :=
  match validate_question question with
  | .error e => .invalidInput e
  | .ok q =>
    let selected_model := validate_model model
    match research q with
    | .error e => .researchFailed e
    | .ok sources =>
        if sources = [] then .noSourcesFound
        else .synthesis q selected_model sources

/-- A validation error short-circuits `/ask` to `INVALID_INPUT`
regardless of the research oracle (no external call can influence or
observe the request). -/
theorem ask_invalid_of_validate_error (q msg : String)
    (h : validate_question q = .error msg) :
    ∀ research model, ask research q model = .invalidInput msg := by
  intro research model
  unfold ask
  rw [h]

/-- C9: input validation accepts exactly the questions whose trimmed
length lies in `[3, 1000]` (returning the trimmed question), and rejects
all others with an `INVALID_INPUT` response produced before the research
oracle is ever consulted. -/
theorem validate_question_boundary (q : String) :
    (3 ≤ (pyStrip q).length ∧ (pyStrip q).length ≤ 1000 →
      validate_question q = .ok (pyStrip q)) ∧
    ((pyStrip q).length < 3 ∨ 1000 < (pyStrip q).length →
      ∃ msg, validate_question q = .error msg ∧
        ∀ research model, ask research q model = .invalidInput msg) := by
  constructor
  · rintro ⟨h3, h1000⟩
    unfold validate_question
    rw [if_neg, if_neg (by omega), if_neg (by omega)]
    rintro (rfl | he)
    · revert h3
      decide
    · rw [he] at h3
      revert h3
      decide
  · intro h
    unfold validate_question
    split_ifs with h1 h2 h3
    · exact ⟨_, rfl, ask_invalid_of_validate_error _ _ (by
        unfold validate_question
        rw [if_pos h1])⟩
    · exact ⟨_, rfl, ask_invalid_of_validate_error _ _ (by
        unfold validate_question
        rw [if_neg h1, if_pos h2])⟩
    · exact ⟨_, rfl, ask_invalid_of_validate_error _ _ (by
        unfold validate_question
        rw [if_neg h1, if_neg h2, if_pos h3])⟩
    · omega

/-- Witness for C9: a well-formed question is accepted; a 2-character
question is rejected with `INVALID_INPUT` for every research oracle. -/
theorem validate_question_boundary_witness :
    validate_question "  What is RICE scoring?  " = .ok (pyStrip "  What is RICE scoring?  ") ∧
    ∃ msg, validate_question "ab" = .error msg ∧
      ∀ research model, ask research "ab" model = .invalidInput msg :=
  ⟨(validate_question_boundary _).1 ⟨by decide, by decide⟩,
   (validate_question_boundary "ab").2 (Or.inl (by decide))⟩

/-! ## `app/utils.py`: citation formatter -/

/-- A source dict as consumed by `build_citation_list`: `title` and
`url` keys may be absent (`none`). -/
structure CiteSource where
  title : Option String := none
  url : Option String := none
deriving Repr, DecidableEq

/-- Python `s.get("title") or s.get("url")`: the title when truthy
(present and non-empty), otherwise the url value. -/
def citeTitleOrUrl (s : CiteSource) : Option String :=
  match s.title with
  | some t => if t = "" then s.url else some t
  | none => s.url

/-- One citation line `f"[{i}] {title} — {s.get('url')}"`. -/
def citeEntry (i : Nat) (s : CiteSource) : String :=
  "[" ++ Nat.repr i ++ "] " ++ optPyStr (citeTitleOrUrl s) ++ " — " ++ optPyStr s.url

/-- Function `build_citation_list`: one formatted line per source, numbered from 1
in source order. -/
def build_citation_list (sources : List CiteSource) : List String :=
  (List.enumFrom 1 sources).map (fun p => citeEntry p.1 p.2)

/-- Helper of `format_superscripts`: the URL recovered from a citation
string `"[i] title — url"` (`parts[-1].strip() if len(parts) > 1 else "#"`). -/
def extractCiteUrl (c : String) : String :=
  let parts := pySplit c "—"
  if parts.length > 1 then pyStrip ((parts.getLast?).getD "#") else "#"

/-- The literal marker `f"[{i}]"`. -/
def supMarker (i : Nat) : String := "[" ++ Nat.repr i ++ "]"

/-- The replacement `f'<sup><a href="{url}" target="_blank" rel="noopener">[{i}]</a></sup>'`. -/
def supLink (url : String) (i : Nat) : String :=
  "<sup><a href=\"" ++ url ++ "\" target=\"_blank\" rel=\"noopener\">[" ++ Nat.repr i ++ "]</a></sup>"

/-- Function `format_superscripts`: replace every `[i]` marker (1-based, one pass
per citation, in order) by its superscript link. -/
def format_superscripts (text : String) (citations : List String) : String :=
  (List.enumFrom 1 citations).foldl
    (fun formatted p => pyReplace formatted (supMarker p.1) (supLink (extractCiteUrl p.2) p.1))
    text

/-- C7: `build_citation_list` yields one string per source in order, the
`i`-th (0-based `i`, so citation number `i+1`) being
`"[i+1] <title-or-url> — <url>"` with the title position falling back to
the url when the title is absent or empty; in particular the spec's
example list renders as stated. -/
theorem build_citation_list_spec :
    (∀ sources : List CiteSource, (build_citation_list sources).length = sources.length) ∧
    (∀ (sources : List CiteSource) (i : Nat) (s : CiteSource), sources[i]? = some s →
      (build_citation_list sources)[i]? =
        some ("[" ++ Nat.repr (i + 1) ++ "] " ++
          (match s.title with
           | some t => if t = "" then optPyStr s.url else t
           | none => optPyStr s.url) ++ " — " ++ optPyStr s.url)) ∧
    build_citation_list [⟨some "A", some "u1"⟩, ⟨none, some "u2"⟩] =
      ["[1] A — u1", "[2] u2 — u2"] := by
  refine ⟨?_, ?_, by decide⟩
  · intro sources
    simp [build_citation_list]
  · intro sources i s h
    simp only [build_citation_list, List.getElem?_map, List.getElem?_enumFrom, h,
      Option.map_some']
    rw [Nat.add_comm 1 i]
    unfold citeEntry citeTitleOrUrl
    match s with
    | ⟨some t, u⟩ =>
        by_cases ht : t = "" <;> simp [ht, optPyStr]
    | ⟨none, u⟩ => simp

/-- Witness for C7: the second entry of the spec's example list, via the
per-index part of the theorem. -/
theorem build_citation_list_spec_witness :
    (build_citation_list [⟨some "A", some "u1"⟩, ⟨none, some "u2"⟩])[1]? =
      some ("[" ++ Nat.repr 2 ++ "] " ++ optPyStr (some "u2") ++ " — " ++ optPyStr (some "u2")) :=
  build_citation_list_spec.2.1 [⟨some "A", some "u1"⟩, ⟨none, some "u2"⟩] 1
    ⟨none, some "u2"⟩ (by decide)

/-! ## `app/researcher.py`: search, fallback sources, synthetic content -/

instance : DecidableEq (Except String String) := fun a b =>
  match a, b with
  | .ok x, .ok y =>
      if h : x = y then isTrue (by rw [h]) else isFalse (fun he => h (Except.ok.inj he))
  | .error x, .error y =>
      if h : x = y then isTrue (by rw [h]) else isFalse (fun he => h (Except.error.inj he))
  | .ok _, .error _ => isFalse (fun he => Except.noConfusion he)
  | .error _, .ok _ => isFalse (fun he => Except.noConfusion he)

/-- One organic result of a Serper search response (`{title, link,
snippet, content?}`); any key may be absent in the provider's JSON. -/
structure SOrganic where
  title : Option String := none
  link : Option String := none
  snippet : Option String := none
  content : Option String := none
deriving Repr, DecidableEq

/-- The hit dict built from one organic result (defaults as in the
source: `'Untitled'` title, empty url/snippet/content). -/
def toHit (r : SOrganic) : Hit :=
  { title := r.title.getD "Untitled", url := r.link.getD "",
    snippet := r.snippet.getD "", content := r.content.getD "" }

/-- Function `is_valid_url`: scheme must be `http`/`https` (urlparse lower-cases
the scheme) and the netloc (host part before the first `/`) non-empty. -/
def isValidUrl (url : String) : Bool :=
  ((url.data.take 7).map lowerC == "http://".data &&
    !((url.data.drop 7).takeWhile (fun c => c != '/')).isEmpty) ||
  ((url.data.take 8).map lowerC == "https://".data &&
    !((url.data.drop 8).takeWhile (fun c => c != '/')).isEmpty)

/-- The 200-response parsing of `serper_search`:
`data.get('organic', [])[:num_results]`, converted to hits and filtered
by `is_valid_url`, in response order. -/
def serperParseHits (organic : List SOrganic) (num : Nat) : List Hit :=
  ((organic.take num).map toHit).filter (fun h => isValidUrl h.url)

/-- One observable outcome of one `requests.post` to the Serper search
endpoint: a response (status plus parsed `organic` array), a
`requests.exceptions.RequestException`, or any other exception (e.g. a
JSON parse failure). -/
inductive SerperEvent
  | resp (status : Nat) (organic : List SOrganic)
  | reqExc
  | exc
deriving Repr, DecidableEq

/-- The retry loop of `serper_search` (3 attempts): `some hits` when a
200 response is parsed, `none` when the loop breaks or falls through
(which routes to `openrouter_search`).  `fuel` counts remaining
attempts; a missing API key raises inside `try` and breaks via the
generic handler; 429 sleeps and retries unconditionally; 402 breaks;
any other non-200 status breaks on the last attempt and retries
otherwise; a `RequestException` retries unless the loop is exhausted. -/
def serperLoop (key : Bool) (num : Nat) : Nat → List SerperEvent → Option (List Hit)
  | 0, _ => none
  | fuel+1, evs =>
    if !key then none
    else
      match evs with
      | [] => none
      | e :: rest =>
        match e with
        | .resp 429 _ => serperLoop key num fuel rest
        | .resp 402 _ => none
        | .resp 200 organic => some (serperParseHits organic num)
        | .resp _ _ => if fuel = 0 then none else serperLoop key num fuel rest
        | .reqExc => if fuel ≥ 1 then serperLoop key num fuel rest else none
        | .exc => none
/-- The `content` of the first entry of `get_fallback_sources`. -/
def fallbackContent1 : String :=
  "\n            The RICE scoring model and Kano model are both popular prioritization frameworks, but they serve different purposes:\n\n            **RICE Scoring Model:**\n            - RICE stands for Reach, Impact, Confidence, and Effort\n            - Quantitative approach using numerical scores\n            - Reach: How many people will be affected\n            - Impact: How much will it affect each person\n            - Confidence: How sure are you about your estimates\n            - Effort: How much work is required\n            - Formula: (Reach × Impact × Confidence) / Effort\n            \n            **Kano Model:**\n            - Qualitative framework focusing on customer satisfaction\n            - Categories features into: Must-haves, Performance features, and Delighters\n            - Must-haves: Basic expectations that cause dissatisfaction if missing\n            - Performance features: Features where more is better\n            - Delighters: Unexpected features that create excitement\n            - Also includes Indifferent and Reverse features\n            \n            **Key Differences:**\n            1. **Methodology**: RICE is quantitative with numerical scoring, Kano is qualitative with categorization\n            2. **Focus**: RICE focuses on business impact and resource allocation, Kano focuses on customer satisfaction\n            3. **Usage**: RICE is better for comparing diverse features, Kano is better for understanding feature types\n            4. **Time**: RICE provides immediate scoring, Kano requires customer research\n            5. **Complementary**: Many teams use both - Kano to understand feature types, RICE to prioritize within categories\n            "

/-- The `content` of the second entry of `get_fallback_sources`. -/
def fallbackContent2 : String :=
  "\n            **When to Use RICE Scoring:**\n            - You need to make quick prioritization decisions\n            - You have diverse features to compare (new features, improvements, technical debt)\n            - You want a standardized scoring system across teams\n            - You need to justify decisions with data\n            - You\x27re in fast-moving environments requiring regular re-prioritization\n            \n            **When to Use Kano Model:**\n            - You\x27re planning a new product or major feature set\n            - You want to understand customer expectations deeply\n            - You have time for customer research and surveys\n            - You\x27re trying to identify potential breakthrough features\n            - You need to balance basic functionality with innovation\n            \n            **Best Practices for Combining Both:**\n            1. Use Kano first to categorize features by customer impact type\n            2. Apply RICE scoring within each Kano category\n            3. Ensure must-haves are prioritized regardless of RICE score\n            4. Use RICE to choose between performance features\n            5. Consider delighters as potential high-impact, low-confidence features in RICE\n            \n            **Implementation Tips:**\n            - RICE works best with cross-functional team input\n            - Kano requires direct customer feedback through surveys or interviews\n            - Both frameworks should be revisited regularly as market conditions change\n            - Consider using simplified versions for smaller teams or projects\n            "

/-- The canned RICE-vs-Kano content of `create_synthetic_content`. -/
def riceKanoContent : String :=
  "\n            **RICE Scoring Model for Prioritization**\n            \n            RICE is a quantitative framework that helps product teams prioritize features and initiatives based on four key factors:\n            \n            **RICE Components:**\n            - **Reach**: Number of people/customers affected in a given time period\n            - **Impact**: Expected improvement to the key metric per person affected (scale: 3=massive, 2=high, 1=medium, 0.5=low, 0.25=minimal)\n            - **Confidence**: How confident you are in your Reach and Impact estimates (percentage: 100%=high, 80%=medium, 50%=low)\n            - **Effort**: Amount of work required from all team members (person-months)\n            \n            **RICE Formula: (Reach × Impact × Confidence) / Effort**\n            \n            **Kano Model for Feature Categorization**\n            \n            The Kano model categorizes features based on their relationship to customer satisfaction:\n            \n            **Kano Categories:**\n            - **Must-haves (Basic)**: Features customers expect; absence causes dissatisfaction\n            - **Performance (Linear)**: More is better; directly correlates with satisfaction\n            - **Delighters (Attractive)**: Unexpected features that create excitement\n            - **Indifferent**: Features customers don\x27t care about\n            - **Reverse**: Features that actually decrease satisfaction for some users\n            \n            **Key Differences Between RICE and Kano:**\n            \n            1. **Methodology**: RICE uses numerical scoring; Kano uses qualitative categorization\n            2. **Purpose**: RICE ranks features by business value; Kano identifies feature types by customer impact\n            3. **Data Requirements**: RICE needs internal estimates; Kano requires customer research\n            4. **Speed**: RICE enables quick decisions; Kano needs time for customer surveys\n            5. **Scope**: RICE compares any initiatives; Kano focuses on customer-facing features\n            \n            **When to Use Each Framework:**\n            - Use RICE when you need to quickly prioritize a backlog of diverse features\n            - Use Kano when planning new products or understanding customer needs deeply\n            - Combine both: Use Kano to categorize features, then RICE to prioritize within categories\n            \n            **Best Practices:**\n            - Regularly update RICE scores as you learn more\n            - Validate Kano categories through customer interviews\n            - Ensure must-haves are addressed regardless of RICE scores\n            - Use cross-functional teams for accurate RICE estimation\n            "

/-- The leftmost match of the regex `https?://[^\s]+` in a line: find
the first position carrying an `http(s)://` prefix followed by at least
one non-whitespace character, and take the maximal non-whitespace run. -/
def findHttpUrl : List Char → Option (List Char)
  | [] => none
  | s@(_ :: rest) =>
      if isPreB "https://".data s then
        let tail := (s.drop 8).takeWhile (fun c => !pySpace c)
        if tail.isEmpty then findHttpUrl rest else some ("https://".data ++ tail)
      else if isPreB "http://".data s then
        let tail := (s.drop 7).takeWhile (fun c => !pySpace c)
        if tail.isEmpty then findHttpUrl rest else some ("http://".data ++ tail)
      else findHttpUrl rest

/-- Parsing of one line of the LLM's URL-list output by
`openrouter_search`: skip blank lines and lines without `"http"`; on an
en-dash line, split once on `"–"`, clean the title
(`strip` + `lstrip("0123456789. ")`) and take the stripped remainder as
url if valid; otherwise search the line for a literal url, derive the
title by deleting the url from the line, and default it to
`"Article"`. -/
def parseORLine (line : String) : Option Hit :=
  let l := pyStrip line
  if l = "" || !pyIn "http" l then none
  else if pyIn "–" l then
    match pySplit l "–" with
    | t :: r :: restParts =>
        let title := pyLStrip (pyStrip t) "0123456789. ".data
        let url := pyStrip (String.intercalate "–" (r :: restParts))
        if url ≠ "" && isValidUrl url then
          some { title := title, url := url, snippet := "", content := "" }
        else none
    | _ => none
  else
    match findHttpUrl l.data with
    | some u =>
        if isValidUrl ⟨u⟩ then
          let title := pyLStrip (pyStrip (pyReplace l ⟨u⟩ "")) "0123456789.- ".data
          some { title := if title = "" then "Article" else title,
                 url := ⟨u⟩, snippet := "", content := "" }
        else none
    | none => none

/-- All hits parsed from the LLM output, in line order. -/
def parseORLines (output : String) : List Hit :=
  (pySplit output "\n").filterMap parseORLine

/-- Function `get_fallback_sources`: the fixed two-entry catalog returned when
the LLM-driven search itself fails (independent of any result cap). -/
def get_fallback_sources (query : String) : List Hit :=
  [{ title := "RICE vs Kano Model: Prioritization Frameworks Compared",
     url := "https://example.com/rice-kano-comparison",
     snippet := "Comparison of RICE scoring and Kano model for feature prioritization",
     content := fallbackContent1 },
   { title := "Product Management Prioritization: When to Use RICE vs Kano",
     url := "https://example.com/prioritization-frameworks",
     snippet := "Strategic guidance on choosing between prioritization frameworks",
     content := fallbackContent2 }]

/-- The messages `openrouter_search` sends to `call_openrouter`. -/
def orSearchMsgs (query : String) (num : Nat) : List ChatMsg :=
  [⟨"system", "You are a research assistant. Only return accessible, high-quality URLs with descriptive titles."⟩,
   ⟨"user",
    "Find reliable, accessible articles about: " ++ query ++ "\n\n" ++
    "Return " ++ Nat.repr num ++ " high-quality URLs from reputable sources like:\n" ++
    "- Harvard Business Review, McKinsey, Deloitte, BCG\n" ++
    "- Medium, ProductPlan, Aha!, industry publications\n" ++
    "- Academic institutions, government sites\n" ++
    "- Avoid paywalled sites or sites that block scraping\n\n" ++
    "Format exactly as:\n" ++
    "1. Descriptive Article Title – https://example.com/full-url"⟩]

/-- Function `openrouter_search`: ask the rate-limited client for a URL list,
parse it line by line and cap at `num` (`hits[:num_results]`); if the
client call raises, return the fixed fallback catalog. -/
def openrouter_search (wire : List WireEvent) (orKey : Bool) (query : String) (num : Nat) : List Hit :=
  match call_openrouter wire orKey (orSearchMsgs query num) none 3 with
  | .ok output => (parseORLines output).take num
  | .error _ => get_fallback_sources query

/-- Function `serper_search`: the primary retry loop; on any exhaustion or break
it falls back to `openrouter_search`. -/
def serper_search (sEvs : List SerperEvent) (sKey : Bool) (wire : List WireEvent)
    (orKey : Bool) (query : String) (num : Nat) : List Hit :=
  match serperLoop sKey num 3 sEvs with
  | some hits => hits
  | none => openrouter_search wire orKey query num

/-- The messages `create_synthetic_content` sends to `call_openrouter`
for a non-RICE/Kano query. -/
def synthContentMsgs (query : String) : List ChatMsg :=
  [⟨"system", "You are a senior business analyst. Provide detailed, structured analysis."⟩,
   ⟨"user",
    "Generate comprehensive business analysis content about: " ++ query ++ "\n\n" ++
    "Provide detailed analysis covering key concepts, best practices, " ++
    "implementation strategies, and practical recommendations."⟩]

/-- The document `create_synthetic_content` builds around generated
`content`. -/
def mkSynDoc (query url content : String) : Doc :=
  { url := url, title := "Business Analysis: " ++ query,
    authors := ["Business Analysis Team"], publish_date := none,
    text := content,
    summary := if content.length > 300 then pyTake content 300 ++ "..." else content,
    synthetic := true }

/-- The degraded document returned when content generation itself
raises. -/
def synErrorDoc (query url : String) : Doc :=
  { url := url, title := "Information about " ++ query,
    authors := [], publish_date := none,
    text := "This analysis covers key aspects of " ++ query ++
      ". The system is currently experiencing high demand, but basic information about " ++
      query ++ " includes fundamental business principles and established methodologies in this area.",
    summary := "General analysis of " ++ query ++ " concepts and applications.",
    synthetic := true,
    error := some "CONTENT_GENERATION_FAILED" }

/-- Function `create_synthetic_content`: canned RICE-vs-Kano content when the
lowered query mentions both frameworks, otherwise LLM-generated content
via `call_openrouter`; an exception from the generation is absorbed into
a tagged degraded document. -/
def create_synthetic_content (wire : List WireEvent) (orKey : Bool) (query url : String) : Doc :=
  if pyIn "rice" (pyLower query) && pyIn "kano" (pyLower query) then
    mkSynDoc query url riceKanoContent
  else
    match call_openrouter wire orKey (synthContentMsgs query) none 3 with
    | .ok content => mkSynDoc query url content
    | .error _ => synErrorDoc query url

/-! ## `app/researcher.py`: the researcher job -/

/-- The document built directly from a hit that already carries
sufficient inline content (all four keys are present on every hit this
code receives, so the dict `get` calls read the stored values). -/
def inlineDoc (h : Hit) : Doc :=
  { url := h.url, title := h.title, authors := [], publish_date := none,
    text := h.content, summary := h.snippet,
    source_snippet := some h.title }

/-- The candidate-processing loop of `researcher_job`: stop as soon as
`top_k_sites` documents are collected; wrap sufficient inline content
directly; otherwise consult the content-extraction oracle
(`fetch_and_extract`, a pure network function, is modelled as an oracle
`String → Except String Doc`); an extraction failure records the url and
continues. -/
def selectLoop (extract : String → Except String Doc) (topk : Nat) :
    List Hit → List Doc → List Doc
  | [], sel => sel
  | h :: rest, sel =>
      if sel.length ≥ topk then sel
      else
        selectLoop extract topk rest
          (if h.content ≠ "" && (pyStrip h.content).length > 100 then
            sel ++ [inlineDoc h]
          else
            match extract h.url with
            | .ok d => sel ++ [{ d with source_snippet := some h.title }]
            | .error _ => sel)

/-- The floor `max(2, min(top_k_sites, 3))` of the synthetic top-up
loop. -/
def padTarget (topk : Nat) : Nat := max 2 (min topk 3)

/-- The synthetic top-up loop
(`while len(selected) < max(2, min(top_k_sites, 3))`), each iteration
appending `create_synthetic_content(query, f"generated://content/{n+1}")`.
`fuel` only bounds the structural recursion; the loop really runs
`tgt - sel.length` times, so any `fuel ≥ tgt` computes the while loop
exactly. -/
def padLoop (wire : Nat → List WireEvent) (orKey : Bool) (query : String) (tgt : Nat) :
    Nat → List Doc → List Doc
  | 0, sel => sel
  | fuel+1, sel =>
      if sel.length < tgt then
        padLoop wire orKey query tgt fuel
          (sel ++ [create_synthetic_content (wire sel.length) orKey query
            ("generated://content/" ++ Nat.repr (sel.length + 1))])
      else sel

/-- Function `researcher_job`: over-fetch `2 × top_k` candidates (the embedded
`serper_search` is total, so the surrounding `try/except` of the source
never fires), collect up to `top_k_sites` documents, then top up with
synthetic content to the floor. -/
def researcher_job (sEvs : List SerperEvent) (sKey : Bool) (wire : List WireEvent) (orKey : Bool)
    (extract : String → Except String Doc) (padWire : Nat → List WireEvent)
    (query : String) (top_k_sites : Nat) : List Doc :=
  padLoop padWire orKey query (padTarget top_k_sites) (padTarget top_k_sites)
    (selectLoop extract top_k_sites
      (serper_search sEvs sKey wire orKey query (top_k_sites * 2)) [])

/-! ## Claims C2, C3, C4, C10 -/

/-- A string starting from a non-empty literal is non-empty. -/
theorem strAppend_ne_empty (a b : String) (ha : a.data ≠ []) : a ++ b ≠ "" := by
  intro h
  have : a.data ++ b.data = [] := congrArg String.data h
  rcases List.append_eq_nil.mp this with ⟨h1, _⟩
  exact ha h1

/-- Appending preserves non-emptiness of the character list. -/
theorem strAppend_data_ne (a b : String) (ha : a.data ≠ []) : (a ++ b).data ≠ [] := by
  intro h
  rcases List.append_eq_nil.mp h with ⟨h1, _⟩
  exact ha h1

/-- Every document produced by `create_synthetic_content` is tagged
`synthetic = true`, on all three paths. -/
theorem create_synthetic_content_synthetic (wire : List WireEvent) (orKey : Bool)
    (query url : String) :
    (create_synthetic_content wire orKey query url).synthetic = true := by
  unfold create_synthetic_content
  split
  · rfl
  · split
    · rfl
    · rfl

/-- The candidate loop never collects more than `max sel.length topk`
documents. -/
theorem selectLoop_length_le (extract : String → Except String Doc) (topk : Nat) :
    ∀ (hits : List Hit) (sel : List Doc),
      (selectLoop extract topk hits sel).length ≤ max sel.length topk := by
  intro hits
  induction hits with
  | nil => intro sel; simp [selectLoop]
  | cons h rest ih =>
    intro sel
    rw [selectLoop]
    split
    · exact Nat.le_max_left _ _
    · rename_i hlt
      have hsel : sel.length < topk := by omega
      have hb : ∀ sel' : List Doc, sel'.length ≤ sel.length + 1 →
          (selectLoop extract topk rest sel').length ≤ max sel.length topk := by
        intro sel' hlen
        calc (selectLoop extract topk rest sel').length ≤ max sel'.length topk := ih sel'
          _ ≤ max sel.length topk := by omega
      split
      · exact hb _ (by simp)
      · split
        · exact hb _ (by simp)
        · exact hb _ (by omega)

/-- With enough fuel, the top-up loop yields exactly
`max sel.length tgt` documents (the while-loop semantics). -/
theorem padLoop_length (wire : Nat → List WireEvent) (orKey : Bool) (query : String)
    (tgt : Nat) : ∀ (fuel : Nat) (sel : List Doc), tgt ≤ sel.length + fuel →
      (padLoop wire orKey query tgt fuel sel).length = max sel.length tgt := by
  intro fuel
  induction fuel with
  | zero => intro sel h; rw [padLoop]; omega
  | succ n ih =>
    intro sel h
    rw [padLoop]
    split
    · rw [ih _ (by simp; omega)]
      simp
      omega
    · omega

/-- Every document coming out of the top-up loop is either an original
or synthetic. -/
theorem padLoop_mem (wire : Nat → List WireEvent) (orKey : Bool) (query : String)
    (tgt : Nat) : ∀ (fuel : Nat) (sel : List Doc),
      ∀ d ∈ padLoop wire orKey query tgt fuel sel, d ∈ sel ∨ d.synthetic = true := by
  intro fuel
  induction fuel with
  | zero => intro sel d hd; rw [padLoop] at hd; exact Or.inl hd
  | succ n ih =>
    intro sel d hd
    rw [padLoop] at hd
    split at hd
    · rcases ih _ d hd with hmem | hsyn
      · rcases List.mem_append.mp hmem with h1 | h2
        · exact Or.inl h1
        · right
          rw [List.mem_singleton.mp h2]
          exact create_synthetic_content_synthetic _ _ _ _
      · exact Or.inr hsyn
    · exact Or.inl hd

/-- C2 (amended): for `top_k ≥ 1` and all oracle behaviours,
`researcher_job` returns between `min(2, top_k)` and `max(2, top_k)`
documents (not `top_k`: the floor `max(2, min(top_k, 3))` exceeds a
`top_k` of `1`), and never an empty list; totality of the definition is
the never-throws part. -/
theorem researcher_job_bounds (sEvs : List SerperEvent) (sKey : Bool) (wire : List WireEvent)
    (orKey : Bool) (extract : String → Except String Doc) (padWire : Nat → List WireEvent)
    (query : String) (top_k : Nat) (htop : 1 ≤ top_k) :
    min 2 top_k ≤ (researcher_job sEvs sKey wire orKey extract padWire query top_k).length ∧
    (researcher_job sEvs sKey wire orKey extract padWire query top_k).length ≤ max 2 top_k ∧
    researcher_job sEvs sKey wire orKey extract padWire query top_k ≠ [] := by
  unfold researcher_job
  have hsel := selectLoop_length_le extract top_k
    (serper_search sEvs sKey wire orKey query (top_k * 2)) []
  simp only [List.length_nil] at hsel
  have hpad := padLoop_length padWire orKey query (padTarget top_k) (padTarget top_k)
    (selectLoop extract top_k (serper_search sEvs sKey wire orKey query (top_k * 2)) [])
    (Nat.le_add_left _ _)
  unfold padTarget at hpad ⊢
  refine ⟨by omega, by omega, ?_⟩
  rw [← List.length_pos]
  omega

/-- Witness for C2 (amended) at a concrete input (`top_k = 5`, all
providers failing). -/
theorem researcher_job_bounds_witness :
    min 2 5 ≤ (researcher_job [] false [] false (fun _ => Except.error "down")
      (fun _ => []) "q" 5).length ∧
    (researcher_job [] false [] false (fun _ => Except.error "down")
      (fun _ => []) "q" 5).length ≤ max 2 5 ∧
    researcher_job [] false [] false (fun _ => Except.error "down") (fun _ => []) "q" 5 ≠ [] :=
  researcher_job_bounds [] false [] false (fun _ => Except.error "down") (fun _ => []) "q" 5
    (by decide)

/-- A search response carrying one valid candidate with 110 characters
of inline content (enough for the inline-wrap branch). -/
def oneRichHit : SOrganic :=
  { title := some "T", link := some "http://a/b", snippet := some "s", content := some "aaaaaaaaaaaaaaaaaaaaaaaaaaaaaaaaaaaaaaaaaaaaaaaaaaaaaaaaaaaaaaaaaaaaaaaaaaaaaaaaaaaaaaaaaaaaaaaaaaaaaaaaaaaaaa" }

/-- C2 counterexample: the claim’s upper bound `top_k` fails at
`top_k = 1`.  One candidate with valid inline content is collected, yet
the floor `max(2, min(1, 3)) = 2` pads the result to two documents, so
`researcher_job` returns 2 > 1 documents. -/
theorem researcher_job_top1_exceeds_cap :
    (researcher_job [SerperEvent.resp 200 [oneRichHit]] true [] false
      (fun _ => Except.error "extraction disabled") (fun _ => []) "q" 1).length = 2 ∧
    ¬((researcher_job [SerperEvent.resp 200 [oneRichHit]] true [] false
      (fun _ => Except.error "extraction disabled") (fun _ => []) "q" 1).length ≤ 1) := by
  constructor
  · decide
  · decide

/-- C3: when the search step yields no candidates (so extraction never
even runs — the loop is vacuous for every extraction oracle),
`researcher_job` still returns at least `min(2, top_k)` documents and
every returned document is tagged `synthetic = true`. -/
theorem researcher_job_synthetic_floor (sEvs : List SerperEvent) (sKey : Bool)
    (wire : List WireEvent) (orKey : Bool) (extract : String → Except String Doc)
    (padWire : Nat → List WireEvent) (query : String) (top_k : Nat)
    (hempty : serper_search sEvs sKey wire orKey query (top_k * 2) = []) :
    min 2 top_k ≤ (researcher_job sEvs sKey wire orKey extract padWire query top_k).length ∧
    ∀ d ∈ researcher_job sEvs sKey wire orKey extract padWire query top_k,
      d.synthetic = true := by
  unfold researcher_job
  rw [hempty]
  rw [show selectLoop extract top_k [] [] = [] from rfl]
  constructor
  · rw [padLoop_length padWire orKey query _ _ [] (by simp)]
    unfold padTarget
    omega
  · intro d hd
    rcases padLoop_mem padWire orKey query _ _ [] d hd with hmem | hsyn
    · exact absurd hmem (List.not_mem_nil d)
    · exact hsyn

/-- Witness for C3: a 200 search response with an empty `organic` array
gives an empty hit list; the result is two synthetic documents. -/
theorem researcher_job_synthetic_floor_witness :
    min 2 5 ≤ (researcher_job [SerperEvent.resp 200 []] true [] false
      (fun _ => Except.error "down") (fun _ => []) "q" 5).length ∧
    ∀ d ∈ researcher_job [SerperEvent.resp 200 []] true [] false
      (fun _ => Except.error "down") (fun _ => []) "q" 5, d.synthetic = true :=
  researcher_job_synthetic_floor [SerperEvent.resp 200 []] true [] false
    (fun _ => Except.error "down") (fun _ => []) "q" 5 (by decide)

/-- C4 (amended): the primary 200-response path of `serper_search` and
the parse path of `openrouter_search` each return at most `num` hits,
as order-preserving selections of the provider output (no re-ranking);
but the fixed fallback catalog ignores the cap and always returns
exactly 2 hits (so the claim's bound fails on the tertiary path for
`num_results = 1`). -/
theorem search_result_caps :
    (∀ (organic : List SOrganic) (num : Nat),
      (serperParseHits organic num).length ≤ num ∧
      List.Sublist (serperParseHits organic num) (organic.map toHit)) ∧
    (∀ (out : String) (num : Nat),
      ((parseORLines out).take num).length ≤ num ∧
      List.Sublist ((parseORLines out).take num) (parseORLines out)) ∧
    (∀ (organic : List SOrganic) (rest : List SerperEvent) (wire : List WireEvent)
        (orKey : Bool) (q : String) (num : Nat),
      serper_search (SerperEvent.resp 200 organic :: rest) true wire orKey q num =
        serperParseHits organic num) ∧
    (∀ (out : String) (rest : List WireEvent) (q : String) (num : Nat),
      openrouter_search (WireEvent.resp 200 (some out) :: rest) true q num =
        (parseORLines (pyStrip out)).take num) ∧
    (∀ q : String, (get_fallback_sources q).length = 2) := by
  refine ⟨?_, ?_, ?_, ?_, fun q => rfl⟩
  · intro organic num
    constructor
    · calc (serperParseHits organic num).length
          ≤ ((organic.take num).map toHit).length := List.length_filter_le _ _
        _ = (organic.take num).length := List.length_map _ _
        _ ≤ num := by simp [List.length_take]
    · exact (List.filter_sublist _).trans (List.Sublist.map toHit (List.take_sublist num organic))
  · intro out num
    exact ⟨by simp [List.length_take], List.take_sublist num _⟩
  · intro organic rest wire orKey q num
    rfl
  · intro out rest q num
    rfl

/-- C4 counterexample: the fixed fallback catalog returns 2 hits even
when the caller asked for at most 1 (`get_fallback_sources` does not
even receive `num_results`). -/
theorem get_fallback_sources_ignores_cap :
    (get_fallback_sources "q").length = 2 ∧ ¬((get_fallback_sources "q").length ≤ 1) := by
  constructor
  · rfl
  · decide

/-- C10 counterexample: the claim's "non-empty text field" fails when
the LLM call succeeds with the empty string (HTTP 200 whose content
strips to `""`): the returned document then has `text = ""`. -/
theorem create_synthetic_content_empty_text :
    (create_synthetic_content [WireEvent.resp 200 (some "")] true "q" "u").text = "" ∧
    (create_synthetic_content [WireEvent.resp 200 (some "")] true "q" "u").synthetic = true := by
  constructor
  · rfl
  · rfl

/-- C10 (amended): `create_synthetic_content` is total over its error
paths: it always returns a document with `synthetic = true` and the
given url; whenever the underlying LLM call does not succeed with the
empty string, the text field is non-empty; and the
`CONTENT_GENERATION_FAILED` tag is present exactly when the LLM path
was taken and raised.  No exception propagates (the embedding returns a
`Doc` on every path). -/
theorem create_synthetic_content_total (wire : List WireEvent) (orKey : Bool)
    (query url : String)
    (hok : call_openrouter wire orKey (synthContentMsgs query) none 3 ≠ Except.ok "") :
    (create_synthetic_content wire orKey query url).synthetic = true ∧
    (create_synthetic_content wire orKey query url).url = url ∧
    (create_synthetic_content wire orKey query url).text ≠ "" ∧
    ((create_synthetic_content wire orKey query url).error =
        some "CONTENT_GENERATION_FAILED" ↔
      (pyIn "rice" (pyLower query) && pyIn "kano" (pyLower query)) = false ∧
      ∃ e, call_openrouter wire orKey (synthContentMsgs query) none 3 = Except.error e) := by
  refine ⟨create_synthetic_content_synthetic wire orKey query url, ?_, ?_, ?_⟩
  all_goals unfold create_synthetic_content
  · split
    · rfl
    · split
      · rfl
      · rfl
  · split
    · show riceKanoContent ≠ ""
      decide
    · rename_i hcanned
      split
      · rename_i c hc
        show c ≠ ""
        intro he
        rw [he] at hc
        exact hok hc
      · show (synErrorDoc query url).text ≠ ""
        exact strAppend_ne_empty _ _
          (strAppend_data_ne _ _ (strAppend_data_ne _ _ (strAppend_data_ne _ _ (by decide))))
  · split
    · rename_i hcanned
      show (mkSynDoc query url riceKanoContent).error = some "CONTENT_GENERATION_FAILED" ↔ _
      simp only [mkSynDoc]
      constructor
      · intro h
        exact absurd h (by simp)
      · rintro ⟨hfalse, _⟩
        rw [hcanned] at hfalse
        exact absurd hfalse (by simp)
    · rename_i hcanned
      have hcf : (pyIn "rice" (pyLower query) && pyIn "kano" (pyLower query)) = false := by
        revert hcanned
        cases pyIn "rice" (pyLower query) && pyIn "kano" (pyLower query) <;> simp
      split
      · rename_i c hc
        simp only [mkSynDoc]
        constructor
        · intro h
          exact absurd h (by simp)
        · rintro ⟨_, e, he⟩
          rw [hc] at he
          exact Except.noConfusion he
      · rename_i e hc
        refine ⟨fun _ => ⟨hcf, e, hc⟩, fun _ => ?_⟩
        simp [synErrorDoc]

/-- Witness for C10 (amended): with the LLM failing on every attempt
(429s), the generated document is synthetic, keeps the url, has
non-empty text and carries the failure tag. -/
theorem create_synthetic_content_total_witness :
    (create_synthetic_content [WireEvent.resp 429 none, WireEvent.resp 429 none,
        WireEvent.resp 429 none] true "pricing strategy" "generated://content/1").synthetic = true ∧
    (create_synthetic_content [WireEvent.resp 429 none, WireEvent.resp 429 none,
        WireEvent.resp 429 none] true "pricing strategy" "generated://content/1").url =
      "generated://content/1" ∧
    (create_synthetic_content [WireEvent.resp 429 none, WireEvent.resp 429 none,
        WireEvent.resp 429 none] true "pricing strategy" "generated://content/1").text ≠ "" ∧
    ((create_synthetic_content [WireEvent.resp 429 none, WireEvent.resp 429 none,
        WireEvent.resp 429 none] true "pricing strategy" "generated://content/1").error =
        some "CONTENT_GENERATION_FAILED" ↔
      (pyIn "rice" (pyLower "pricing strategy") && pyIn "kano" (pyLower "pricing strategy")) = false ∧
      ∃ e, call_openrouter [WireEvent.resp 429 none, WireEvent.resp 429 none,
        WireEvent.resp 429 none] true (synthContentMsgs "pricing strategy") none 3 =
          Except.error e) :=
  create_synthetic_content_total [WireEvent.resp 429 none, WireEvent.resp 429 none,
    WireEvent.resp 429 none] true "pricing strategy" "generated://content/1" (by decide)

/-! ## Claim C6: marker rewriting in `format_superscripts`

The development characterises `pyReplace` on texts assembled from
blocks — marker-free segments and literal `[n]` markers — and shows the
fold over citations links exactly the markers whose index has a
citation.  First, facts about decimal numerals (`Nat.repr`). -/

/-- The decimal digit list of `n`, by plain recursion (used to reason
about `Nat.toDigitsCore`). -/
def myDigits (n : Nat) : List Char :=
  if n < 10 then [Nat.digitChar n] else myDigits (n / 10) ++ [Nat.digitChar (n % 10)]
decreasing_by exact Nat.div_lt_self (by omega) (by omega)

theorem toDigitsCore_eq : ∀ (fuel n : Nat) (ds : List Char), n < fuel →
    Nat.toDigitsCore 10 fuel n ds = myDigits n ++ ds := by
  intro fuel
  induction fuel with
  | zero => omega
  | succ m ih =>
    intro n ds h
    rw [Nat.toDigitsCore]
    by_cases h10 : n / 10 = 0
    · rw [if_pos h10, myDigits]
      have hn : n < 10 := by omega
      rw [if_pos hn, Nat.mod_eq_of_lt hn]
      rfl
    · rw [if_neg h10, ih _ _ (by omega)]
      have hn : ¬ n < 10 := by
        intro hc
        exact h10 (Nat.div_eq_of_lt hc)
      conv_rhs => rw [myDigits, if_neg hn]
      simp

/-- Unfolding `Nat.repr` to `myDigits`. -/
theorem repr_data_eq (n : Nat) : (Nat.repr n).data = myDigits n := by
  show (Nat.toDigits 10 n).asString.data = myDigits n
  rw [Nat.toDigits, toDigitsCore_eq _ _ _ (Nat.lt_succ_self n)]
  simp [List.asString]

theorem digitChar_isDigit : ∀ d, d < 10 → (Nat.digitChar d).isDigit = true := by decide

theorem digitChar_toNat : ∀ d, d < 10 → (Nat.digitChar d).toNat = 48 + d := by decide

/-- All characters of a decimal numeral are digits. -/
theorem myDigits_isDigit : ∀ n, ∀ c ∈ myDigits n, c.isDigit = true := by
  intro n
  induction n using Nat.strong_induction_on with
  | _ n ih =>
    intro c hc
    rw [myDigits] at hc
    split at hc
    · rw [List.mem_singleton.mp hc]
      exact digitChar_isDigit n (by omega)
    · rcases List.mem_append.mp hc with h1 | h2
      · exact ih (n / 10) (Nat.div_lt_self (by omega) (by omega)) c h1
      · rw [List.mem_singleton.mp h2]
        exact digitChar_isDigit _ (Nat.mod_lt _ (by omega))

theorem repr_no_lbracket (n : Nat) : '[' ∉ (Nat.repr n).data := by
  rw [repr_data_eq]
  intro h
  have := myDigits_isDigit n _ h
  exact absurd this (by decide)

theorem repr_no_rbracket (n : Nat) : ']' ∉ (Nat.repr n).data := by
  rw [repr_data_eq]
  intro h
  have := myDigits_isDigit n _ h
  exact absurd this (by decide)

/-- Decimal value of a digit list. -/
def valDigits (l : List Char) : Nat := l.foldl (fun a c => 10 * a + (c.toNat - 48)) 0

theorem valDigits_append_last (l : List Char) (c : Char) :
    valDigits (l ++ [c]) = 10 * valDigits l + (c.toNat - 48) := by
  simp [valDigits, List.foldl_append]

theorem valDigits_myDigits : ∀ n, valDigits (myDigits n) = n := by
  intro n
  induction n using Nat.strong_induction_on with
  | _ n ih =>
    rw [myDigits]
    split
    · rename_i h10
      simp [valDigits, digitChar_toNat n (by omega)]
    · rename_i h10
      rw [valDigits_append_last, ih (n / 10) (Nat.div_lt_self (by omega) (by omega)),
        digitChar_toNat _ (Nat.mod_lt _ (by omega))]
      omega

/-- Injectivity of `Nat.repr`. -/
theorem repr_injective {n m : Nat} (h : Nat.repr n = Nat.repr m) : n = m := by
  have hd : myDigits n = myDigits m := by
    rw [← repr_data_eq, ← repr_data_eq, h]
  calc n = valDigits (myDigits n) := (valDigits_myDigits n).symm
    _ = valDigits (myDigits m) := by rw [hd]
    _ = m := valDigits_myDigits m

/-- Relation: `u` begins `l`. -/
def IsPreL (u l : List Char) : Prop := ∃ t, u ++ t = l

/-- Relation: `u` ends `l`. -/
def IsSufL (u l : List Char) : Prop := ∃ t, t ++ u = l

/-- Relation: `u` occurs inside `l`. -/
def InfL (u l : List Char) : Prop := ∃ x y, x ++ u ++ y = l

theorem isPreB_iff : ∀ (u l : List Char), isPreB u l = true ↔ IsPreL u l := by
  intro u
  induction u with
  | nil => intro l; simp [isPreB, IsPreL]
  | cons a u ih =>
    intro l
    cases l with
    | nil =>
        simp only [isPreB, IsPreL]
        constructor
        · intro h
          exact Bool.noConfusion h
        · rintro ⟨t, ht⟩
          exact List.noConfusion ht
    | cons b v =>
        simp only [isPreB, Bool.and_eq_true, beq_iff_eq, ih v]
        constructor
        · rintro ⟨rfl, t, rfl⟩
          exact ⟨t, rfl⟩
        · rintro ⟨t, ht⟩
          injection ht with h1 h2
          exact ⟨h1, t, h2⟩

theorem IsPreL.length_le {u l : List Char} (h : IsPreL u l) : u.length ≤ l.length := by
  rcases h with ⟨t, rfl⟩
  simp

/-- A prefix of `v ++ w` no longer than `v` is a prefix of `v`. -/
theorem preL_shorten {u v w : List Char} (h : IsPreL u (v ++ w)) (hl : u.length ≤ v.length) :
    IsPreL u v := by
  rcases h with ⟨t, ht⟩
  have hu : u = (v ++ w).take u.length := by
    rw [← ht, List.take_left]
  rw [List.take_append_of_le_length hl] at hu
  have h2 := List.take_append_drop u.length v
  rw [← hu] at h2
  exact ⟨v.drop u.length, h2⟩

/-- Of two prefixes of the same list, the shorter begins the longer. -/
theorem preL_of_both {u v w : List Char} (hu : IsPreL u w) (hv : IsPreL v w)
    (hl : u.length ≤ v.length) : IsPreL u v := by
  rcases hv with ⟨t, rfl⟩
  exact preL_shorten hu hl

/-- A block through which `pyReplace` passes unchanged: the pattern does
not occur in it, and no non-trivial suffix of it begins the pattern (so
no occurrence can straddle its right edge). -/
def CleanB (pat b : List Char) : Prop :=
  ¬ InfL pat b ∧ ∀ s, IsSufL s b → IsPreL s pat → s = []

theorem CleanB.tail {pat : List Char} {c : Char} {b : List Char}
    (h : CleanB pat (c :: b)) : CleanB pat b := by
  constructor
  · rintro ⟨x, y, rfl⟩
    exact h.1 ⟨c :: x, y, rfl⟩
  · intro s hs hp
    rcases hs with ⟨t, rfl⟩
    exact h.2 s ⟨c :: t, rfl⟩ hp

/-- The pattern cannot begin a text that starts inside a clean block. -/
theorem not_preL_of_cleanB {pat : List Char} {c : Char} {b t : List Char}
    (hc : CleanB pat (c :: b)) : ¬ IsPreL pat ((c :: b) ++ t) := by
  intro hp
  by_cases hl : pat.length ≤ (c :: b).length
  · exact hc.1 (by
      rcases preL_shorten hp hl with ⟨s, hs⟩
      exact ⟨[], s, hs⟩)
  · have hb : IsPreL (c :: b) pat :=
      preL_of_both ⟨t, rfl⟩ hp (by omega)
    have := hc.2 (c :: b) ⟨[], rfl⟩ hb
    exact List.noConfusion this

/-- Consuming the skip counter is dropping characters. -/
theorem replGo_skip (pat rep : List Char) : ∀ (k : Nat) (l : List Char),
    replGo pat rep l k = replGo pat rep (l.drop k) 0 := by
  intro k
  induction k with
  | zero => intro l; rw [List.drop_zero]
  | succ n ih =>
    intro l
    cases l with
    | nil => rw [replGo]; rfl
    | cons c rest => rw [replGo, ih, List.drop_succ_cons]

/-- Replacement at a match: the pattern is consumed and replaced. -/
theorem replGo_match (pat rep t : List Char) (hpat : pat ≠ []) :
    replGo pat rep (pat ++ t) 0 = rep ++ replGo pat rep t 0 := by
  match pat, hpat with
  | p :: pr, _ =>
    rw [show (p :: pr) ++ t = p :: (pr ++ t) from rfl, replGo]
    rw [if_pos]
    · rw [replGo_skip]
      congr 2
      show (pr ++ t).drop pr.length = t
      rw [List.drop_left]
    · simp only [Bool.and_eq_true]
      refine ⟨decide_eq_true (by simp), ?_⟩
      rw [isPreB_iff]
      exact ⟨t, rfl⟩

/-- Replacement walks over a clean block unchanged. -/
theorem replGo_clean (pat rep : List Char) (hpat : pat ≠ []) :
    ∀ (b t : List Char), CleanB pat b →
      replGo pat rep (b ++ t) 0 = b ++ replGo pat rep t 0 := by
  intro b
  induction b with
  | nil => intro t _; rfl
  | cons c b ih =>
    intro t hc
    rw [show (c :: b) ++ t = c :: (b ++ t) from rfl, replGo, if_neg, ih t hc.tail]
    · rfl
    · intro hcond
      rw [Bool.and_eq_true] at hcond
      exact not_preL_of_cleanB hc ((isPreB_iff _ _).mp hcond.2)

/-- Behaviour of `pyReplace` on a concatenation of blocks, each either the pattern or
clean, replaces exactly the pattern blocks. -/
theorem replGo_chunks (pat rep : List Char) (hpat : pat ≠ []) :
    ∀ chunks : List (List Char), (∀ ch ∈ chunks, ch = pat ∨ CleanB pat ch) →
      replGo pat rep chunks.flatten 0 =
        (chunks.map (fun ch => if ch = pat then rep else ch)).flatten := by
  intro chunks
  induction chunks with
  | nil => intro _; rfl
  | cons ch chunks ih =>
    intro h
    rw [List.flatten_cons, List.map_cons, List.flatten_cons]
    by_cases hch : ch = pat
    · subst hch
      rw [if_pos rfl, replGo_match _ _ _ hpat, ih (fun x hx => h x (List.mem_cons_of_mem _ hx))]
    · rcases h ch (List.mem_cons_self _ _) with h1 | h2
      · exact absurd h1 hch
      · rw [if_neg hch, replGo_clean _ _ hpat _ _ h2,
          ih (fun x hx => h x (List.mem_cons_of_mem _ hx))]


/-- Strings with equal character lists are equal. -/
theorem strDataEq {a b : String} (h : a.data = b.data) : a = b := by
  cases a
  cases b
  exact congrArg String.mk h

/-- Cancellation around a separator absent from both left parts. -/
theorem append_sep_inj : ∀ (a b x y : List Char), ']' ∉ a → ']' ∉ b →
    a ++ ']' :: x = b ++ ']' :: y → a = b ∧ x = y := by
  intro a
  induction a with
  | nil =>
    intro b x y _ hb h
    cases b with
    | nil =>
        simp only [List.nil_append, List.cons.injEq] at h
        exact ⟨rfl, h.2⟩
    | cons d b' =>
        simp only [List.nil_append, List.cons_append, List.cons.injEq] at h
        exact absurd (show ']' ∈ d :: b' from h.1 ▸ List.mem_cons_self d b') hb
  | cons c a' ih =>
    intro b x y ha hb h
    cases b with
    | nil =>
        simp only [List.nil_append, List.cons_append, List.cons.injEq] at h
        exact absurd (show ']' ∈ c :: a' from h.1 ▸ List.mem_cons_self c a') ha
    | cons d b' =>
        simp only [List.cons_append, List.cons.injEq] at h
        have ha' : ']' ∉ a' := fun hm => ha (List.mem_cons_of_mem _ hm)
        have hb' : ']' ∉ b' := fun hm => hb (List.mem_cons_of_mem _ hm)
        rcases ih b' x y ha' hb' h.2 with ⟨hab, hxy⟩
        exact ⟨by rw [h.1, hab], hxy⟩

theorem supMarker_data (n : Nat) :
    (supMarker n).data = '[' :: ((Nat.repr n).data ++ [']']) := rfl

/-- Equal markers come from equal numbers. -/
theorem supMarker_inj {n j : Nat} (h : supMarker n = supMarker j) : n = j := by
  have hd := congrArg String.data h
  rw [supMarker_data, supMarker_data] at hd
  simp only [List.cons.injEq, true_and] at hd
  have h3 := append_sep_inj _ _ [] [] (repr_no_rbracket n) (repr_no_rbracket j)
    (by simpa using hd)
  exact repr_injective (strDataEq h3.1)

/-- A marker with a different number is a clean block for the pattern
`[j]`. -/
theorem marker_cleanB {n j : Nat} (hne : supMarker n ≠ supMarker j) :
    CleanB (supMarker j).data (supMarker n).data := by
  rw [supMarker_data, supMarker_data]
  have markersEq : (Nat.repr n).data = (Nat.repr j).data → False := by
    intro hD
    exact hne (strDataEq (by rw [supMarker_data, supMarker_data, hD]))
  constructor
  · rintro ⟨x, y, hxy⟩
    cases x with
    | nil =>
        simp only [List.nil_append, List.cons_append, List.append_assoc, List.cons.injEq,
          true_and] at hxy
        have h3 := append_sep_inj _ _ y [] (repr_no_rbracket j) (repr_no_rbracket n)
          (by simpa using hxy)
        exact markersEq h3.1.symm
    | cons c x' =>
        simp only [List.cons_append, List.cons.injEq] at hxy
        have hmem : '[' ∈ x' ++ ('[' :: ((Nat.repr j).data ++ [']'])) ++ y :=
          List.mem_append.mpr (Or.inl (List.mem_append.mpr (Or.inr (List.mem_cons_self _ _))))
        rw [hxy.2] at hmem
        rcases List.mem_append.mp hmem with hm | hm
        · exact repr_no_lbracket n hm
        · exact absurd (List.mem_singleton.mp hm) (by decide)
  · intro s hsuf hpre
    by_contra hs
    match s, hs with
    | c :: s', _ =>
      rcases hpre with ⟨t, ht⟩
      simp only [List.cons_append, List.cons.injEq] at ht
      rcases hsuf with ⟨w, hw⟩
      cases w with
      | nil =>
          simp only [List.nil_append, List.cons.injEq] at hw
          rw [hw.2] at ht
          have h2 := ht.2
          rw [List.append_assoc] at h2
          have h3 := append_sep_inj _ _ t [] (repr_no_rbracket n) (repr_no_rbracket j)
            (by simpa using h2)
          exact markersEq h3.1
      | cons d w' =>
          simp only [List.cons_append, List.cons.injEq] at hw
          have hmem : '[' ∈ w' ++ c :: s' :=
            List.mem_append.mpr (Or.inr (ht.1 ▸ List.mem_cons_self c s'))
          rw [hw.2] at hmem
          rcases List.mem_append.mp hmem with hm | hm
          · exact repr_no_lbracket n hm
          · exact absurd (List.mem_singleton.mp hm) (by decide)

/-- A `[`-free character list is a clean block for any marker pattern. -/
theorem free_cleanB {b : List Char} (hb : '[' ∉ b) (j : Nat) :
    CleanB (supMarker j).data b := by
  constructor
  · rintro ⟨x, y, hxy⟩
    apply hb
    rw [← hxy]
    refine List.mem_append.mpr (Or.inl (List.mem_append.mpr (Or.inr ?_)))
    rw [supMarker_data]
    exact List.mem_cons_self _ _
  · intro s hsuf hpre
    by_contra hs
    match s, hs with
    | c :: s', _ =>
      rcases hpre with ⟨t, ht⟩
      rw [supMarker_data] at ht
      simp only [List.cons_append, List.cons.injEq] at ht
      rcases hsuf with ⟨w, hw⟩
      apply hb
      rw [← hw]
      exact List.mem_append.mpr (Or.inr (ht.1 ▸ List.mem_cons_self c s'))

/-- Data of `a ++ b` unfolds (definitional). -/
theorem strData_append (a b : String) : (a ++ b).data = a.data ++ b.data := rfl

/-- A building block of a text: a marker-free segment or a literal
marker `[n]`. -/
inductive CBlock
  | free (s : String)
  | mark (n : Nat)
deriving Repr, DecidableEq

def renderB : CBlock → String
  | .free s => s
  | .mark n => supMarker n

def renderBlocks : List CBlock → String
  | [] => ""
  | b :: bs => renderB b ++ renderBlocks bs

theorem renderBlocks_data : ∀ bs : List CBlock,
    (renderBlocks bs).data = (bs.map (fun b => (renderB b).data)).flatten := by
  intro bs
  induction bs with
  | nil => rfl
  | cons b bs ih =>
    rw [renderBlocks, List.map_cons, List.flatten_cons, strData_append, ih]

theorem renderBlocks_append : ∀ xs ys : List CBlock,
    (renderBlocks (xs ++ ys)).data = (renderBlocks xs).data ++ (renderBlocks ys).data := by
  intro xs ys
  induction xs with
  | nil => rfl
  | cons b xs ih =>
    rw [List.cons_append, renderBlocks, renderBlocks, strData_append, strData_append, ih,
      List.append_assoc]

/-- The literal part of the replacement link before the marker. -/
def supLinkPre (url : String) : String :=
  "<sup><a href=\"" ++ url ++ "\" target=\"_blank\" rel=\"noopener\">"

/-- The replacement string, as blocks: tag prefix, the re-inserted
marker `[n]`, tag suffix. -/
def supLinkBlocks (url : String) (n : Nat) : List CBlock :=
  [.free (supLinkPre url), .mark n, .free "</a></sup>"]

theorem supLink_render (url : String) (n : Nat) :
    renderBlocks (supLinkBlocks url n) = supLink url n := by
  apply strDataEq
  show (supLinkPre url ++ (supMarker n ++ ("</a></sup>" ++ ""))).data = (supLink url n).data
  simp only [strData_append, supLinkPre, supLink, supMarker, List.append_assoc]
  rfl

/-- One pass of marker replacement at the block level: marker `[j]`
blocks are replaced by `repl`, everything else is kept. -/
def replaceMark (j : Nat) (repl : List CBlock) : List CBlock → List CBlock
  | [] => []
  | .free s :: bs => .free s :: replaceMark j repl bs
  | .mark n :: bs => (if n = j then repl else [.mark n]) ++ replaceMark j repl bs

/-- Marker-free segments of a block list really are `[`-free. -/
def blockOk : CBlock → Bool
  | .free s => !(s.data.contains '[')
  | .mark _ => true

theorem blockOk_free {s : String} (h : blockOk (CBlock.free s) = true) : '[' ∉ s.data := by
  intro hm
  have h2 : s.data.contains '[' = true := List.elem_iff.mpr hm
  simp only [blockOk, h2] at h
  exact Bool.noConfusion h

theorem supMarker_data_ne_nil (j : Nat) : (supMarker j).data ≠ [] := by
  rw [supMarker_data]
  exact List.noConfusion

/-- The chunk of a block is the pattern `[j]` iff the block is `[j]`
itself (or a `[`-free segment, never). -/
theorem replGo_blocks_align (j : Nat) (repl : List CBlock) :
    ∀ bs : List CBlock, (∀ b ∈ bs, blockOk b = true) →
      ((bs.map (fun b => (renderB b).data)).map
        (fun ch => if ch = (supMarker j).data then (renderBlocks repl).data else ch)).flatten =
      (renderBlocks (replaceMark j repl bs)).data := by
  intro bs
  induction bs with
  | nil => intro _; rfl
  | cons b bs ih =>
    intro h
    have hb := h b (List.mem_cons_self _ _)
    have htail := fun x hx => h x (List.mem_cons_of_mem _ hx)
    rw [List.map_cons, List.map_cons, List.flatten_cons, ih htail]
    cases b with
    | free s =>
        simp only [renderB]
        rw [if_neg, replaceMark, renderBlocks, strData_append]
        · rfl
        · intro heq
          apply blockOk_free hb
          rw [heq, supMarker_data]
          exact List.mem_cons_self _ _
    | mark n =>
        simp only [renderB]
        by_cases hn : n = j
        · subst hn
          rw [if_pos rfl, replaceMark, if_pos rfl, renderBlocks_append]
        · rw [if_neg, replaceMark, if_neg hn, renderBlocks_append]
          · simp [renderBlocks, renderB, strData_append]
          · intro heq
            exact hn (supMarker_inj (strDataEq heq))

/-- Replacing marker `[j]` in the rendered text is `replaceMark` at the
block level. -/
theorem pyReplace_render (j : Nat) (repl bs : List CBlock)
    (hfree : ∀ b ∈ bs, blockOk b = true) :
    pyReplace (renderBlocks bs) (supMarker j) (renderBlocks repl) =
      renderBlocks (replaceMark j repl bs) := by
  apply strDataEq
  show replGo (supMarker j).data (renderBlocks repl).data (renderBlocks bs).data 0 = _
  rw [renderBlocks_data bs,
    replGo_chunks _ _ (supMarker_data_ne_nil j) _ ?hch,
    replGo_blocks_align j repl bs hfree]
  case hch =>
    intro ch hch
    rcases List.mem_map.mp hch with ⟨b, hb, rfl⟩
    cases b with
    | free s => exact Or.inr (free_cleanB (blockOk_free (hfree _ hb)) j)
    | mark n =>
        by_cases hn : supMarker n = supMarker j
        · exact Or.inl (congrArg String.data hn)
        · exact Or.inr (marker_cleanB hn)

/-- The block-level effect of processing one enumerated citation. -/
def citeStep (acc : List CBlock) (p : Nat × String) : List CBlock :=
  replaceMark p.1 (supLinkBlocks (extractCiteUrl p.2) p.1) acc

theorem replaceMark_keeps_blockOk (j : Nat) (url : String)
    (hurl : '[' ∉ (extractCiteUrl url |>.data)) :
    ∀ bs : List CBlock, (∀ b ∈ bs, blockOk b = true) →
      ∀ b ∈ replaceMark j (supLinkBlocks (extractCiteUrl url) j) bs, blockOk b = true := by
  intro bs
  induction bs with
  | nil => intro _ b hb; exact absurd hb (List.not_mem_nil b)
  | cons x bs ih =>
    intro h b hb
    have htail := fun y hy => h y (List.mem_cons_of_mem _ hy)
    cases x with
    | free s =>
        rw [replaceMark] at hb
        rcases List.mem_cons.mp hb with rfl | hb2
        · exact h _ (List.mem_cons_self _ _)
        · exact ih htail b hb2
    | mark n =>
        rw [replaceMark] at hb
        rcases List.mem_append.mp hb with hb1 | hb2
        · split at hb1
          · rcases hb1 with _ | ⟨_, (_ | ⟨_, (_ | ⟨_, h⟩)⟩)⟩
            · show blockOk (.free (supLinkPre (extractCiteUrl url))) = true
              simp only [blockOk, Bool.not_eq_true']
              rw [show (supLinkPre (extractCiteUrl url)).data.contains '[' =
                ((supLinkPre (extractCiteUrl url)).data.elem '[') from rfl]
              rw [← Bool.not_eq_true, List.elem_iff]
              intro hm
              rw [supLinkPre, strData_append, strData_append] at hm
              rcases List.mem_append.mp hm with hm1 | hm2
              · rcases List.mem_append.mp hm1 with hm3 | hm4
                · exact absurd hm3 (by decide)
                · exact hurl hm4
              · exact absurd hm2 (by decide)
            · rfl
            · rfl
            · exact absurd h (List.not_mem_nil b)
          · rcases List.mem_singleton.mp hb1 with rfl
            rfl
        · exact ih htail b hb2

/-- Folding the citation list over the rendered text is folding
`citeStep` over the blocks. -/
theorem fold_render : ∀ (cs : List String) (k : Nat) (bs : List CBlock),
    (∀ b ∈ bs, blockOk b = true) →
    (∀ c ∈ cs, '[' ∉ (extractCiteUrl c).data) →
    (List.enumFrom k cs).foldl
      (fun formatted p => pyReplace formatted (supMarker p.1) (supLink (extractCiteUrl p.2) p.1))
      (renderBlocks bs) =
    renderBlocks ((List.enumFrom k cs).foldl citeStep bs) := by
  intro cs
  induction cs with
  | nil => intro k bs _ _; rfl
  | cons c cs ih =>
    intro k bs hfree hurl
    show (List.enumFrom (k+1) cs).foldl _
        (pyReplace (renderBlocks bs) (supMarker k) (supLink (extractCiteUrl c) k)) =
      renderBlocks ((List.enumFrom (k+1) cs).foldl citeStep (citeStep bs (k, c)))
    rw [← supLink_render, pyReplace_render k _ bs hfree]
    exact ih (k+1) (citeStep bs (k, c))
      (replaceMark_keeps_blockOk k c (hurl c (List.mem_cons_self _ _)) bs hfree)
      (fun x hx => hurl x (List.mem_cons_of_mem _ hx))

/-- The final fate of one block after all citations are processed:
marker `[n]` with a citation (1 ≤ n ≤ number of citations) becomes the
superscript link carrying that citation's URL; any other marker and
every segment is unchanged. -/
def finalizeBlock (cs : List String) : CBlock → List CBlock
  | .free s => [.free s]
  | .mark n =>
      if 1 ≤ n ∧ n ≤ cs.length then
        supLinkBlocks (extractCiteUrl (cs.getD (n-1) "")) n
      else [.mark n]

def finalizeAll (cs : List String) : List CBlock → List CBlock
  | [] => []
  | b :: bs => finalizeBlock cs b ++ finalizeAll cs bs

/-- The state after the first `k` citations are processed. -/
def pFinB (cs : List String) (k : Nat) : CBlock → List CBlock
  | .free s => [.free s]
  | .mark n =>
      if 1 ≤ n ∧ n ≤ k ∧ n ≤ cs.length then
        supLinkBlocks (extractCiteUrl (cs.getD (n-1) "")) n
      else [.mark n]

def pFinAll (cs : List String) (k : Nat) : List CBlock → List CBlock
  | [] => []
  | b :: bs => pFinB cs k b ++ pFinAll cs k bs

theorem pFinAll_zero (cs : List String) : ∀ bs : List CBlock, pFinAll cs 0 bs = bs := by
  intro bs
  induction bs with
  | nil => rfl
  | cons b bs ih =>
    rw [pFinAll, ih]
    cases b with
    | free s => rfl
    | mark n =>
        rw [pFinB, if_neg (by omega)]
        rfl

theorem pFinAll_large (cs : List String) (k : Nat) (hk : cs.length ≤ k) :
    ∀ bs : List CBlock, pFinAll cs k bs = finalizeAll cs bs := by
  intro bs
  induction bs with
  | nil => rfl
  | cons b bs ih =>
    rw [pFinAll, finalizeAll, ih]
    cases b with
    | free s => rfl
    | mark n =>
        rw [pFinB, finalizeBlock]
        by_cases hcond : 1 ≤ n ∧ n ≤ cs.length
        · rw [if_pos ⟨hcond.1, by omega, hcond.2⟩, if_pos hcond]
        · rw [if_neg (by omega), if_neg hcond]

/-- Processing citation `k+1` advances the partial state by one. -/
theorem pFin_step (cs : List String) (k : Nat) (c : String)
    (hk : cs.getD k "" = c) (hlen : k < cs.length) (b : CBlock) :
    replaceMark (k+1) (supLinkBlocks (extractCiteUrl c) (k+1)) (pFinB cs k b) =
      pFinB cs (k+1) b := by
  cases b with
  | free s => rfl
  | mark n =>
    rw [pFinB, pFinB]
    by_cases hcond : 1 ≤ n ∧ n ≤ k ∧ n ≤ cs.length
    · rw [if_pos hcond, if_pos ⟨hcond.1, by omega, hcond.2.2⟩]
      show CBlock.free _ :: ((if n = k+1 then _ else _) ++ _) = _
      rw [if_neg (by omega)]
      rfl
    · rw [if_neg hcond]
      by_cases hn : n = k + 1
      · subst hn
        show (if k+1 = k+1 then _ else _) ++ replaceMark _ _ [] = _
        rw [if_pos rfl, if_pos ⟨by omega, by omega, by omega⟩]
        rw [show k + 1 - 1 = k from by omega, hk]
        simp [replaceMark]
      · show (if n = k+1 then _ else _) ++ replaceMark _ _ [] = _
        rw [if_neg hn, if_neg (by omega)]
        rfl

theorem replaceMark_pFinAll (cs : List String) (k : Nat) (c : String)
    (hk : cs.getD k "" = c) (hlen : k < cs.length) :
    ∀ bs : List CBlock,
      replaceMark (k+1) (supLinkBlocks (extractCiteUrl c) (k+1)) (pFinAll cs k bs) =
        pFinAll cs (k+1) bs := by
  have happ : ∀ xs ys : List CBlock, ∀ j r,
      replaceMark j r (xs ++ ys) = replaceMark j r xs ++ replaceMark j r ys := by
    intro xs
    induction xs with
    | nil => intro ys j r; rfl
    | cons x xs ih =>
      intro ys j r
      cases x with
      | free s => rw [List.cons_append, replaceMark, replaceMark, ih, List.cons_append]
      | mark n => rw [List.cons_append, replaceMark, replaceMark, ih, List.append_assoc]
  intro bs
  induction bs with
  | nil => rfl
  | cons b bs ih =>
    rw [pFinAll, pFinAll, happ, ih, pFin_step cs k c hk hlen b]

/-- Folding the remaining citations over a partially processed state
completes it. -/
theorem applyFrom_eq (cs : List String) : ∀ (rest : List String) (k : Nat),
    rest = cs.drop k → ∀ bs : List CBlock,
    (List.enumFrom (k+1) rest).foldl citeStep (pFinAll cs k bs) = finalizeAll cs bs := by
  intro rest
  induction rest with
  | nil =>
    intro k h bs
    have hk : cs.length ≤ k := by
      by_contra hx
      have : cs.drop k ≠ [] := by
        intro hnil
        rw [List.drop_eq_nil_iff] at hnil
        omega
      exact this h.symm
    exact (pFinAll_large cs k hk bs)
  | cons c rest ih =>
    intro k h bs
    have hlen : k < cs.length := by
      by_contra hx
      have : cs.drop k = [] := by
        rw [List.drop_eq_nil_iff]
        omega
      rw [this] at h
      exact List.noConfusion h
    have hget : cs.getD k "" = c := by
      have h0 : (cs.drop k)[0]? = cs[k]? := by
        simp [List.getElem?_drop]
      rw [← h] at h0
      rw [List.getD_eq_getElem?_getD, ← h0]
      simp
    have hrest : rest = cs.drop (k+1) := by
      have := List.tail_drop cs k
      rw [← h] at this
      simpa using this
    show (List.enumFrom (k+2) rest).foldl citeStep
        (citeStep (pFinAll cs k bs) (k+1, c)) = finalizeAll cs bs
    rw [show citeStep (pFinAll cs k bs) (k+1, c) =
        replaceMark (k+1) (supLinkBlocks (extractCiteUrl c) (k+1)) (pFinAll cs k bs) from rfl,
      replaceMark_pFinAll cs k c hget hlen bs]
    exact ih (k+1) hrest bs

/-- C6: `format_superscripts` (the spec's `rewrite_markers`) on a text
assembled from marker-free segments and literal `[n]` markers replaces
exactly the markers whose 1-based index has an entry in the citation
list, each by the superscript link carrying that citation's URL
(`finalizeBlock`), and leaves every marker without a citation and every
segment unchanged.  Hypotheses: segments carry no `[` and extracted
citation URLs carry no `[` (the purely-textual replacement is not
context-aware, so a `[` inside them could splice with surrounding text).
The function is total — malformed citation strings only default the URL
to `"#"`, never an error. -/
theorem format_superscripts_rewrites_markers (cs : List String) (bs : List CBlock)
    (hfree : ∀ b ∈ bs, blockOk b = true)
    (hurl : ∀ c ∈ cs, '[' ∉ (extractCiteUrl c).data) :
    format_superscripts (renderBlocks bs) cs = renderBlocks (finalizeAll cs bs) := by
  show (List.enumFrom 1 cs).foldl _ (renderBlocks bs) = _
  rw [fold_render cs 1 bs hfree hurl]
  congr 1
  have h := applyFrom_eq cs cs 0 (by rw [List.drop_zero]) bs
  rw [pFinAll_zero] at h
  exact h

/-- Witness for C6: the spec's example — `[1]` and `[2]` have citations
and are linked with their URLs, `[3]` has none and is untouched. -/
theorem format_superscripts_rewrites_markers_witness :
    format_superscripts
      (renderBlocks [.free "See ", .mark 1, .free " and ", .mark 2, .free " but not ", .mark 3,
        .free "."])
      ["[1] A — https://a.example", "[2] B — https://b.example"] =
    renderBlocks (finalizeAll ["[1] A — https://a.example", "[2] B — https://b.example"]
      [.free "See ", .mark 1, .free " and ", .mark 2, .free " but not ", .mark 3, .free "."]) :=
  format_superscripts_rewrites_markers
    ["[1] A — https://a.example", "[2] B — https://b.example"]
    [.free "See ", .mark 1, .free " and ", .mark 2, .free " but not ", .mark 3, .free "."]
    (by decide) (by decide)
